import Mathlib

/-!
Shallow embedding of the descarteslabs-ea-notebooks pipeline.

The repository's reimplementable logic lives in a handful of notebook
functions: `get_ndvi_tseries` (time-series extraction, cloud masking, NDVI,
temporal resampling), `get_field_class` (the Lambda/Batch model-cache and
inference routine from `model.py`, quoted in `01_intro_to_ea.ipynb`), the
Flask route `get_field_class` (quoted in `04_building_a_flask_app.ipynb`),
`classify_ndvi` (the distributed-task entry point in
`01_intro_to_aws_ea.ipynb`), and the `as_completed` collection loop of the
same notebook.  Each is translated here over an explicit state model:
numpy masked arrays become pairs of data and Bool-valued mask functions,
the local filesystem and the remote-fetch counter become a `World` record,
and fallible steps return `Except`.
-/

namespace EA

/-- A per-day raster stack as produced by `scenes.stack(["red","nir","cloud_mask"], ...)`:
band 0 is red, band 1 is nir, band 2 (the last band, `stack[:,-1]`) is the
cloud mask.  The two spatial axes are flattened into one pixel index, which
is harmless because every spatial operation in the source (the mask
broadcast and the median over `axis=[1,2]`) treats the pixels of a day as
an unordered collection.  `data` is the underlying `.data` buffer and
`mask` the validity mask of the numpy masked array. -/
structure Stack (days px : ℕ) where
  data : Fin days → Fin 3 → Fin px → ℚ
  mask : Fin days → Fin 3 → Fin px → Bool

/-- A 2-D masked array (day × pixel), e.g. the NDVI image stack. -/
structure Masked2D (days px : ℕ) where
  data : Fin days → Fin px → ℚ
  mask : Fin days → Fin px → Bool

/-- A 1-D masked series (one slot per acquisition day). -/
structure Masked1D (days : ℕ) where
  data : Fin days → ℚ
  mask : Fin days → Bool

/-- The per-pixel cloud predicate `stack[:,-1].data == 1` from
`get_ndvi_tseries`: the raw (unmasked) value of the cloud-mask band equals
the cloud flag value 1. -/
def cloudPredicate (s : Stack days px) (d : Fin days) (p : Fin px) : Bool :=
  decide (s.data d 2 p = 1)

/-- The broadcast `cmask = np.repeat((stack[:,-1].data==1)[:, np.newaxis], stack.shape[1], axis=1)`:
the per-pixel cloud predicate repeated (broadcast) across the band axis. -/
def cmask (s : Stack days px) (d : Fin days) (_b : Fin 3) (p : Fin px) : Bool :=
  cloudPredicate s d p

/-- The update `stack.mask = (stack.mask) | cmask` from `get_ndvi_tseries`. -/
def maskClouds (s : Stack days px) : Stack days px :=
  { data := s.data
    mask := fun d b p => s.mask d b p || cmask s d b p }

/-- The index image `ndvi = (stack[:,1] - stack[:,0])/(stack[:,1] + stack[:,0])`.
Following numpy masked-array semantics, the result's mask is the union of
the operand masks, plus the division's domain mask (denominator zero). -/
def ndvi (s : Stack days px) : Masked2D days px :=
  { data := fun d p => (s.data d 1 p - s.data d 0 p) / (s.data d 1 p + s.data d 0 p)
    mask := fun d p =>
      (s.mask d 1 p || s.mask d 0 p) || decide (s.data d 1 p + s.data d 0 p = 0) }

/-- numpy's median of a list of rationals: middle element of the sorted
list for odd length, mean of the two middle elements for even length. -/
def npMedian (l : List ℚ) : ℚ :=
  let s := List.insertionSort (fun a b => a ≤ b) l
  let n := s.length
  if n % 2 = 1 then s.getD (n / 2) 0
  else (s.getD (n / 2 - 1) 0 + s.getD (n / 2) 0) / 2

/-- The unmasked pixel values of day `d`. -/
def validPixelVals (m : Masked2D days px) (d : Fin days) : List ℚ :=
  ((List.finRange px).filter (fun p => !(m.mask d p))).map (fun p => m.data d p)

/-- The aggregation `ndvi_ts = np.ma.median(ndvi, axis=[1,2])`: per day, the median of the
unmasked pixels; the day is masked iff it has no unmasked pixel. -/
def ndviTs (m : Masked2D days px) : Masked1D days :=
  { data := fun d => npMedian (validPixelVals m d)
    mask := fun d => (validPixelVals m d).isEmpty }

/-- The aggregated masked NDVI series of a stack: cloud masking, NDVI,
then the spatial masked median. -/
def tsOf (s : Stack days px) : Masked1D days :=
  ndviTs (ndvi (maskClouds s))

/-- The valid (unmasked) positions of a masked series, in day order:
the indexing set of `ndvi_ts.data[~ndvi_ts.mask]`. -/
def validDays (ts : Masked1D days) : List (Fin days) :=
  (List.finRange days).filter (fun d => !(ts.mask d))

/-- Number of masked (invalid) entries of the aggregated series. -/
def maskCount (ts : Masked1D days) : ℕ :=
  (List.finRange days).countP (fun d => ts.mask d)

/-- The grid `np.arange(start_date, end_date, timedelta(days=6))` on day numbers:
`start, start+6, ...` while `< end`; numpy's length is
`ceil((end-start)/6)`, which on naturals is `(end - start + 5) / 6`. -/
def newDates (start_date end_date : ℕ) : List ℕ :=
  (List.range ((end_date - start_date + 5) / 6)).map (fun k => start_date + 6 * k)

/-- Evaluation of `scipy.interpolate.interp1d(xs, ys, kind="linear",
bounds_error=False, fill_value="extrapolate")` at `t`: the segment index is
`searchsorted(xs, t)` (the number of knots strictly below `t`) clipped to
`[1, len-1]`, and the value is the linear interpolant of that segment,
which also extrapolates from the first/last segment outside the knots. -/
def interp1dEval (xs ys : List ℚ) (t : ℚ) : ℚ :=
  let idx := min (max (xs.countP (fun x => decide (x < t))) 1) (xs.length - 1)
  let x0 := xs.getD (idx - 1) 0
  let x1 := xs.getD idx 0
  let y0 := ys.getD (idx - 1) 0
  let y1 := ys.getD idx 0
  y0 + (y1 - y0) * (t - x0) / (x1 - x0)

/-- The error kinds relevant to the pipeline: `valueError` is the
`ValueError` scipy's `interp1d` raises when given fewer than two sample
points; `insufficientData` is the `InsufficientDataError` the spec asks a
reimplementation to raise (the source never raises it). -/
inductive PipeError where
  | valueError
  | insufficientData

deriving instance DecidableEq for PipeError

/-- Day number (days since the Unix epoch, UTC) of the default
`start_date="2019-04-01"`. -/
def startDateDefault : ℕ := 17987

/-- Day number of the default `end_date="2019-10-01"` (183 days later). -/
def endDateDefault : ℕ := 18170

/-- The function `get_ndvi_tseries` from `utils.py` / `01_intro_to_aws_ea.ipynb`.  The
remote catalog's response for the geometry is passed in as the stack `s`
together with the per-day acquisition dates `sampleDate` (day numbers, in
the order of the flattened stack; `datetime.timestamp()` of a day is
`day * 86400`).  Cloud masking, NDVI and the spatial median produce the
irregular series; the valid samples feed `interp1d`, which raises
`ValueError` when there are fewer than two of them; otherwise the
interpolant is evaluated on the fixed 6-day grid, and the first grid point
is dropped from both returned vectors. -/
def get_ndvi_tseries (s : Stack days px) (sampleDate : Fin days → ℕ)
    (start_date end_date : ℕ) : Except PipeError (List ℚ × List ℕ) :=
  let ts := tsOf s
  let vd := validDays ts
  let dates_masked : List ℚ := vd.map (fun d => (sampleDate d : ℚ) * 86400)
  let tseries_masked : List ℚ := vd.map (fun d => ts.data d)
  let nds := newDates start_date end_date
  let new_dates_ts : List ℚ := nds.map (fun t : ℕ => (t : ℚ) * 86400)
  if dates_masked.length < 2 then Except.error PipeError.valueError
  else
    Except.ok
      ((new_dates_ts.map (fun t => interp1dEval dates_masked tseries_masked t)).drop 1,
        nds.drop 1)

/-- The persistent state a handler can touch: the set of local directories,
the set of local files, and a counter of fetches from the remote object
store (S3 `download_file` / `dl.storage.get_file`). -/
structure World where
  localDirs : List String
  localFiles : List String
  fetches : ℕ

deriving instance DecidableEq for World

/-- The `{"class": ..., "fid": ...}` result dict shared by the
`get_field_class` of `model.py` and the Flask route. -/
structure ClassResult where
  «class» : ℤ
  fid : String

deriving instance DecidableEq for ClassResult

/-- The filesystem/S3 prologue of the `get_field_class` of `model.py`:
`os.makedirs("/tmp/models")` when the directory is absent, then
`s3.download_file(s3_bucket, model_name, temp_file_path)` only when
`/tmp/models/<model_name>` is absent. -/
def cacheModelFile (model_name : String) (w : World) : World :=
  let w1 :=
    if "/tmp/models" ∈ w.localDirs then w
    else { w with localDirs := "/tmp/models" :: w.localDirs }
  let temp_file_path := "/tmp/models/" ++ model_name
  if temp_file_path ∈ w1.localFiles then w1
  else { w1 with localFiles := temp_file_path :: w1.localFiles, fetches := w1.fetches + 1 }

/-- The function `get_field_class(geom, fid, s3_bucket, model_name)` from `model.py`
(quoted in `01_intro_to_ea.ipynb`): ensure the cache directory, fetch the
model into `/tmp/models/<model_name>` only if that file is missing, load
the classifier (`clf`, passed in as the deserialized predict function),
compute the NDVI time series for the geometry (whose catalog response is
the stack `s` with dates `sampleDate`, over the default date range), and
return `{"class": clf.predict(...)[0], "fid": fid}`. -/
def get_field_class (clf : List ℚ → ℤ) (s : Stack days px) (sampleDate : Fin days → ℕ)
    (fid s3_bucket model_name : String) (w : World) :
    World × Except PipeError ClassResult :=
  let _ := s3_bucket
  let w2 := cacheModelFile model_name w
  match get_ndvi_tseries s sampleDate startDateDefault endDateDefault with
  | Except.error e => (w2, Except.error e)
  | Except.ok r => (w2, Except.ok { «class» := clf r.1, fid := fid })

/-- The function `classify_ndvi(geom, field_id)` from `01_intro_to_aws_ea.ipynb`, the
distributed-task entry point: first computes the NDVI time series, then
unconditionally calls `dl.storage.get_file("classifier.joblib",
"classifier.joblib")` — there is no cache-existence check here, so every
successful call fetches the artifact — loads it, and returns
`(clf.predict(...), field_id)`. -/
def classify_ndvi (clf : List ℚ → ℤ) (s : Stack days px) (sampleDate : Fin days → ℕ)
    (field_id : String) (w : World) :
    World × Except PipeError (ℤ × String) :=
  match get_ndvi_tseries s sampleDate startDateDefault endDateDefault with
  | Except.error e => (w, Except.error e)
  | Except.ok r =>
      let w1 :=
        { w with
          localFiles :=
            if "classifier.joblib" ∈ w.localFiles then w.localFiles
            else "classifier.joblib" :: w.localFiles,
          fetches := w.fetches + 1 }
      (w1, Except.ok (clf r.1, field_id))

/-- A parsed `POST /getclass` body: `request.json` with a `geometry`
member and an optional `fid` member. -/
structure RequestBody where
  geometry : List (ℚ × ℚ)
  fid : Option String

/-- The cache step of the Flask route: fetch `classifier.joblib` from
`dl.storage` into `../models/classifier.joblib` only when that file is
missing. -/
def flaskCacheFile (w : World) : World :=
  if "../models/classifier.joblib" ∈ w.localFiles then w
  else { w with localFiles := "../models/classifier.joblib" :: w.localFiles,
                fetches := w.fetches + 1 }

/-- The Flask route `get_field_class` from `04_building_a_flask_app.ipynb`:
`fid = content["fid"] if "fid" in content.keys() else ""`; fetch the
classifier only when its local file is missing (`flaskCacheFile`); run the
pipeline on the request's geometry (catalog response passed as the stack
`s`); return `{"class": clf.predict(...)[0], "fid": fid}`. -/
def flask_get_field_class (clf : List ℚ → ℤ) (s : Stack days px)
    (sampleDate : Fin days → ℕ) (content : RequestBody) (w : World) :
    World × Except PipeError ClassResult :=
  let fid :=
    match content.fid with
    | some f => f
    | none => ""
  let w1 := flaskCacheFile w
  match get_ndvi_tseries s sampleDate startDateDefault endDateDefault with
  | Except.error e => (w1, Except.error e)
  | Except.ok r => (w1, Except.ok { «class» := clf r.1, fid := fid })

/-- A completed distributed task as seen by the collection loop:
`task.is_success` is `result?.isSome`, and `task.result` is the
`(class id, field id)` payload of a successful task. -/
structure DLTask where
  result? : Option (ℤ × String)

deriving instance DecidableEq for DLTask

/-- One iteration of the `as_completed` collection loop of
`01_intro_to_aws_ea.ipynb`: a successful task's result is recorded, a
failed task is appended to `failed_tasks`. -/
def collectStep (acc : List (ℤ × String) × List DLTask) (task : DLTask) :
    List (ℤ × String) × List DLTask :=
  match task.result? with
  | some r => (acc.1 ++ [r], acc.2)
  | none => (acc.1, acc.2 ++ [task])

/-- The whole collection loop, run over the tasks in completion order. -/
def collectResults (tasks : List DLTask) : List (ℤ × String) × List DLTask :=
  tasks.foldl collectStep ([], [])

/-- The fan-out scenario's task list: tasks numbered 1..N, of which every
10th (numbers divisible by 10) raises and the rest succeed. -/
def everyTenthTasks (N : ℕ) : List DLTask :=
  (List.range N).map (fun i =>
    { result? := if (i + 1) % 10 = 0 then none else some (0, toString (i + 1)) })

/-! Concrete example inputs used by witnesses and counterexamples. -/

/-- A cloud-free two-day, one-pixel stack: red = 1, nir = 2, cloud band = 0,
nothing pre-masked, so both days are valid samples. -/
def exStack2 : Stack 2 1 :=
  { data := fun _ b _ => if b = 0 then 1 else if b = 1 then 2 else 0
    mask := fun _ _ _ => false }

/-- Acquisition day numbers for `exStack2`: days 17990 and 18000. -/
def exDates2 : Fin 2 → ℕ := fun d => 17990 + 10 * d.val

/-- The zero-scenes stack: the catalog returned no scenes, so the stacked
array has no days. -/
def exStack0 : Stack 0 1 :=
  { data := fun _ _ _ => 0
    mask := fun _ _ _ => false }

/-- The (empty) date assignment of the zero-scenes stack. -/
def exDates0 : Fin 0 → ℕ := fun d => d.val

/-- A concrete deserialized classifier for the examples. -/
def exClf : List ℚ → ℤ := fun _ => 1

/-- A fresh process state: no local files or directories, no fetches yet. -/
def w0 : World := { localDirs := [], localFiles := [], fetches := 0 }

/-- A process state in which the model file is already cached. -/
def w1ex : World :=
  { localDirs := ["/tmp/models"]
    localFiles := ["/tmp/models/classifier.joblib"]
    fetches := 0 }

/-- A one-day, one-pixel stack whose cloud band is clear (value 0). -/
def exStackClear : Stack 1 1 :=
  { data := fun _ b _ => if b = 0 then 1 else if b = 1 then 2 else 0
    mask := fun _ _ _ => false }

/-- The same stack with its only pixel cloud-flagged (cloud band value 1). -/
def exStackCloudy : Stack 1 1 :=
  { data := fun _ b _ => if b = 0 then 1 else if b = 1 then 2 else 1
    mask := fun _ _ _ => false }

/-- A concrete request body with an explicit `fid`. -/
def exContent : RequestBody :=
  { geometry := [(0, 0), (1, 0), (1, 1), (0, 1), (0, 0)]
    fid := some "test-field" }

/-- The (successful) pair returned by `get_ndvi_tseries` on the concrete
two-sample input over the default date range. -/
def exTs : List ℚ × List ℕ :=
  ((get_ndvi_tseries exStack2 exDates2 startDateDefault endDateDefault).toOption).getD
    ([], [])

/-- The (successful) response of the Flask route on the concrete request. -/
def exResp : ClassResult :=
  ((flask_get_field_class exClf exStack2 exDates2 exContent w0).2.toOption).getD
    { «class» := 0, fid := "unset" }

/-! Theorems. -/

/-- The world returned by `get_field_class` is exactly the cache update,
whatever the pipeline does. -/
theorem get_field_class_fst (days px : ℕ) (clf : List ℚ → ℤ) (s : Stack days px)
    (sampleDate : Fin days → ℕ) (fid b m : String) (w : World) :
    (get_field_class clf s sampleDate fid b m w).1 = cacheModelFile m w := by
  rw [get_field_class]
  cases get_ndvi_tseries s sampleDate startDateDefault endDateDefault <;> rfl

/-- The world returned by the Flask route is exactly its cache update. -/
theorem flask_get_field_class_fst (days px : ℕ) (clf : List ℚ → ℤ) (s : Stack days px)
    (sampleDate : Fin days → ℕ) (content : RequestBody) (w : World) :
    (flask_get_field_class clf s sampleDate content w).1 = flaskCacheFile w := by
  rw [flask_get_field_class]
  cases get_ndvi_tseries s sampleDate startDateDefault endDateDefault <;> rfl

/-- After the cache step the model file is present locally. -/
theorem cacheModelFile_mem_file (m : String) (w : World) :
    "/tmp/models/" ++ m ∈ (cacheModelFile m w).localFiles := by
  rw [cacheModelFile]
  by_cases h1 : "/tmp/models" ∈ w.localDirs <;>
    by_cases h2 : "/tmp/models/" ++ m ∈ w.localFiles <;>
      simp [h1, h2]

/-- After the cache step the cache directory is present locally. -/
theorem cacheModelFile_mem_dir (m : String) (w : World) :
    "/tmp/models" ∈ (cacheModelFile m w).localDirs := by
  rw [cacheModelFile]
  by_cases h1 : "/tmp/models" ∈ w.localDirs <;>
    by_cases h2 : "/tmp/models/" ++ m ∈ w.localFiles <;>
      simp [h1, h2]

/-- When directory and file are already present, the cache step is a no-op. -/
theorem cacheModelFile_noop (m : String) (w : World)
    (h1 : "/tmp/models" ∈ w.localDirs) (h2 : "/tmp/models/" ++ m ∈ w.localFiles) :
    cacheModelFile m w = w := by
  rw [cacheModelFile]
  simp [h1, h2]

/-- The cache step of `get_field_class` is idempotent. -/
theorem cacheModelFile_idem (m : String) (w : World) :
    cacheModelFile m (cacheModelFile m w) = cacheModelFile m w :=
  cacheModelFile_noop m (cacheModelFile m w)
    (cacheModelFile_mem_dir m w) (cacheModelFile_mem_file m w)

/-- The cache step of the Flask route is idempotent. -/
theorem flaskCacheFile_idem (w : World) :
    flaskCacheFile (flaskCacheFile w) = flaskCacheFile w := by
  rw [flaskCacheFile]
  by_cases h : "../models/classifier.joblib" ∈ w.localFiles
  · simp [flaskCacheFile, h]
  · simp [flaskCacheFile, h]

/-- C3 counterexample: in the distributed-task deployment shape
(`classify_ndvi`), the artifact is fetched unconditionally.  Starting from
a fresh process state, the first successful call fetches once and leaves
the model file present locally, yet the second call fetches again (total 2
fetches), refuting "the classifier is fetched from remote storage only
when the local cache path is missing the named model file" for this shape. -/
theorem C3_counterexample :
    ((classify_ndvi exClf exStack2 exDates2 "f1" w0).1).fetches = 1
    ∧ "classifier.joblib" ∈ ((classify_ndvi exClf exStack2 exDates2 "f1" w0).1).localFiles
    ∧ ((classify_ndvi exClf exStack2 exDates2 "f1"
          (classify_ndvi exClf exStack2 exDates2 "f1" w0).1).1).fetches = 2 := by
  refine ⟨?_, ?_, ?_⟩
  · with_unfolding_all rfl
  · with_unfolding_all decide
  · with_unfolding_all rfl

/-- C3 (amended): in the Lambda/Batch shape (`get_field_class` from
`model.py`) and in the Flask shape, the classifier is fetched only when
the local cache path is missing the model file, so a second call right
after any first call performs no further remote fetch; the
distributed-task shape (`classify_ndvi`) instead re-fetches on every
successful call. -/
theorem C3_cache_idempotent_lambda_flask (days px : ℕ) (clf : List ℚ → ℤ)
    (s : Stack days px) (sampleDate : Fin days → ℕ) (fid b m : String)
    (content : RequestBody) (w w' : World) :
    ((get_field_class clf s sampleDate fid b m
        (get_field_class clf s sampleDate fid b m w).1).1).fetches
      = ((get_field_class clf s sampleDate fid b m w).1).fetches
    ∧ ((flask_get_field_class clf s sampleDate content
        (flask_get_field_class clf s sampleDate content w').1).1).fetches
      = ((flask_get_field_class clf s sampleDate content w').1).fetches := by
  constructor
  · rw [get_field_class_fst, get_field_class_fst, cacheModelFile_idem]
  · rw [flask_get_field_class_fst, flask_get_field_class_fst, flaskCacheFile_idem]

/-- C7: the Flask handler's response is a `{class, fid}` pair whose `fid`
is the request's `fid` field when present and the empty string when
absent; the identifier is passed through unchanged. -/
theorem C7_fid_passthrough (days px : ℕ) (clf : List ℚ → ℤ) (s : Stack days px)
    (sampleDate : Fin days → ℕ) (content : RequestBody) (w : World)
    (resp : ClassResult)
    (h : (flask_get_field_class clf s sampleDate content w).2 = Except.ok resp) :
    resp.fid = content.fid.getD "" := by
  rw [flask_get_field_class] at h
  cases hp : get_ndvi_tseries s sampleDate startDateDefault endDateDefault with
  | error e =>
      rw [hp] at h
      exact absurd h (by simp)
  | ok r =>
      rw [hp] at h
      simp only [Except.ok.injEq] at h
      subst h
      cases hc : content.fid <;> simp [hc]

/-- Witness for C7: the concrete request `exContent` carries
`fid = "test-field"`, and the concrete response's `fid` equals it. -/
theorem C7_fid_passthrough_witness :
    exResp.fid = exContent.fid.getD "" :=
  C7_fid_passthrough 2 1 exClf exStack2 exDates2 exContent w0 exResp
    (by with_unfolding_all rfl)

/-- C10: a `get_field_class` call writes to the local filesystem only at
`/tmp/models/<model_name>` (and may create the `/tmp/models` directory),
and when the cache file (hence, on a real filesystem, also its directory)
already exists the call leaves the whole world — files, directories and
fetch count — unchanged. -/
theorem C10_local_writes_confined (days px : ℕ) (clf : List ℚ → ℤ)
    (s : Stack days px) (sampleDate : Fin days → ℕ) (fid b m : String) (w : World) :
    (∀ q : String, q ≠ "/tmp/models/" ++ m →
        (q ∈ ((get_field_class clf s sampleDate fid b m w).1).localFiles
          ↔ q ∈ w.localFiles))
    ∧ (∀ q : String, q ≠ "/tmp/models" →
        (q ∈ ((get_field_class clf s sampleDate fid b m w).1).localDirs
          ↔ q ∈ w.localDirs))
    ∧ ("/tmp/models/" ++ m ∈ w.localFiles → "/tmp/models" ∈ w.localDirs →
        (get_field_class clf s sampleDate fid b m w).1 = w) := by
  rw [get_field_class_fst]
  refine ⟨?_, ?_, ?_⟩
  · intro q hq
    rw [cacheModelFile]
    by_cases h1 : "/tmp/models" ∈ w.localDirs <;>
      by_cases h2 : "/tmp/models/" ++ m ∈ w.localFiles <;>
        simp [h1, h2, hq]
  · intro q hq
    rw [cacheModelFile]
    by_cases h1 : "/tmp/models" ∈ w.localDirs <;>
      by_cases h2 : "/tmp/models/" ++ m ∈ w.localFiles <;>
        simp [h1, h2, hq]
  · intro h2 h1
    exact cacheModelFile_noop m w h1 h2

/-- Witness for C10: in a state whose cache already holds
`/tmp/models/classifier.joblib`, the call changes nothing. -/
theorem C10_local_writes_confined_witness :
    (get_field_class exClf exStack2 exDates2 "f1" "bkt" "classifier.joblib" w1ex).1
      = w1ex :=
  (C10_local_writes_confined 2 1 exClf exStack2 exDates2 "f1" "bkt"
      "classifier.joblib" w1ex).2.2 (by decide) (by decide)

/-- C4: for every pixel where both input bands (red = band 0 and
nir = band 1) are positive, the normalized index
`(band2 − band1) / (band2 + band1)` computed by `get_ndvi_tseries` lies in
the interval [-1, 1]. -/
theorem C4_ndvi_bounded (days px : ℕ) (s : Stack days px) (d : Fin days) (p : Fin px)
    (h0 : 0 < s.data d 0 p) (h1 : 0 < s.data d 1 p) :
    -1 ≤ (ndvi s).data d p ∧ (ndvi s).data d p ≤ 1 := by
  have hden : 0 < s.data d 1 p + s.data d 0 p := by linarith
  constructor
  · rw [ndvi, le_div_iff₀ hden]
    linarith
  · rw [ndvi, div_le_one hden]
    linarith

/-- Witness for C4 at the concrete stack `exStack2` (red = 1, nir = 2). -/
theorem C4_ndvi_bounded_witness :
    (0 < exStack2.data 0 0 0 ∧ 0 < exStack2.data 0 1 0)
    ∧ (-1 ≤ (ndvi exStack2).data 0 0 ∧ (ndvi exStack2).data 0 0 ≤ 1) :=
  ⟨⟨by decide, by decide⟩,
    C4_ndvi_bounded 2 1 exStack2 0 0 (by decide) (by decide)⟩

/-- C5: `get_ndvi_tseries` sets the stack's mask to the pointwise OR of the
pre-existing mask with the predicate "cloud-mask band value equals 1",
where that per-pixel predicate (`cmask`) is broadcast across every band of
the same day, and the data buffer is left unchanged. -/
theorem C5_cloud_mask_or_broadcast (days px : ℕ) (s : Stack days px) (d : Fin days)
    (b b' : Fin 3) (p : Fin px) :
    (maskClouds s).mask d b p = (s.mask d b p || decide (s.data d 2 p = 1))
    ∧ (maskClouds s).data d b p = s.data d b p
    ∧ cmask s d b p = cmask s d b' p :=
  ⟨rfl, rfl, rfl⟩

/-- C1 counterexample: over the function's own default date range
(2019-04-01 to 2019-10-01, 183 days), a geometry with two valid samples
yields a resampled series of 30 elements, while
`(end_date − start_date) / 6 days − 1` is 29 (and the exact quotient
183/6 − 1 = 29.5 is not an integer at all): `np.arange` produces
`ceil(183/6) = 31` grid points, not `183/6`, before the first is dropped. -/
theorem C1_counterexample :
    (get_ndvi_tseries exStack2 exDates2 startDateDefault endDateDefault).map
        (fun r => r.1.length) = Except.ok 30
    ∧ (endDateDefault - startDateDefault) / 6 - 1 = 29 :=
  ⟨by with_unfolding_all rfl, by decide⟩

/-- C1 (amended): for every stack with at least 2 valid (unmasked) index
samples, `get_ndvi_tseries` succeeds and the resampled value and date
series each have exactly `⌈(end_date − start_date) / 6 days⌉ − 1` elements
(equal to `(end_date − start_date)/6 − 1` exactly when the range is a
multiple of 6 days), and every element is a well-defined rational (the
linear interpolant with extrapolation is total on ≥ 2 samples). -/
theorem C1_resampled_length (days px : ℕ) (s : Stack days px)
    (sampleDate : Fin days → ℕ) (start_date end_date : ℕ)
    (h : 2 ≤ (validDays (tsOf s)).length) :
    ∃ vals dates,
      get_ndvi_tseries s sampleDate start_date end_date = Except.ok (vals, dates)
      ∧ vals.length = (end_date - start_date + 5) / 6 - 1
      ∧ dates.length = (end_date - start_date + 5) / 6 - 1 := by
  simp only [get_ndvi_tseries]
  rw [if_neg]
  · exact ⟨_, _, rfl,
      by simp only [List.length_drop, List.length_map, newDates, List.length_range],
      by simp only [List.length_drop, List.length_map, newDates, List.length_range]⟩
  · simp only [List.length_map]
    omega

/-- Witness for C1 (amended) at the two-sample stack `exStack2`:
183 days at a 6-day step give `⌈183/6⌉ − 1 = 30` resampled elements. -/
theorem C1_resampled_length_witness :
    2 ≤ (validDays (tsOf exStack2)).length
    ∧ ∃ vals dates,
        get_ndvi_tseries exStack2 exDates2 startDateDefault endDateDefault
          = Except.ok (vals, dates)
        ∧ vals.length = (endDateDefault - startDateDefault + 5) / 6 - 1
        ∧ dates.length = (endDateDefault - startDateDefault + 5) / 6 - 1 :=
  ⟨by with_unfolding_all decide,
    C1_resampled_length 2 1 exStack2 exDates2 startDateDefault endDateDefault
      (by with_unfolding_all decide)⟩

/-- C2 counterexample: on the zero-scenes input the pipeline fails with the
`ValueError` of `interp1d` (an exception of an unrelated kind), not with
`InsufficientDataError` — the source defines no such error. -/
theorem C2_counterexample :
    get_ndvi_tseries exStack0 exDates0 startDateDefault endDateDefault
        = Except.error PipeError.valueError
    ∧ Except.error PipeError.valueError
        ≠ (Except.error PipeError.insufficientData : Except PipeError (List ℚ × List ℕ)) := by
  refine ⟨by with_unfolding_all rfl, ?_⟩
  intro hcontra
  injection hcontra with h2
  cases h2

/-- C2 (amended): whenever fewer than two valid samples exist (zero scenes,
or an all-masked stack), the pipeline raises scipy's unhandled `ValueError`
at interpolation time; it never raises `InsufficientDataError`, which the
source does not define. -/
theorem C2_too_few_samples_value_error (days px : ℕ) (s : Stack days px)
    (sampleDate : Fin days → ℕ) (start_date end_date : ℕ)
    (h : (validDays (tsOf s)).length < 2) :
    get_ndvi_tseries s sampleDate start_date end_date
      = Except.error PipeError.valueError := by
  simp only [get_ndvi_tseries, List.length_map]
  rw [if_pos h]

/-- Witness for C2 (amended) at the zero-scenes stack. -/
theorem C2_too_few_samples_witness :
    (validDays (tsOf exStack0)).length < 2
    ∧ get_ndvi_tseries exStack0 exDates0 startDateDefault endDateDefault
        = Except.error PipeError.valueError :=
  ⟨by decide,
    C2_too_few_samples_value_error 0 1 exStack0 exDates0 startDateDefault
      endDateDefault (by decide)⟩

/-- C9: on every successful run, `get_ndvi_tseries` returns the evaluated
vector and the 6-day grid dates with the first grid point — the one equal
to the range start — dropped from both, so the two returned vectors have
equal length. -/
theorem C9_first_grid_point_dropped (days px : ℕ) (s : Stack days px)
    (sampleDate : Fin days → ℕ) (start_date end_date : ℕ) (vals : List ℚ)
    (dates : List ℕ)
    (h : get_ndvi_tseries s sampleDate start_date end_date = Except.ok (vals, dates)) :
    vals.length = dates.length
    ∧ dates = (newDates start_date end_date).drop 1
    ∧ (start_date < end_date →
        (newDates start_date end_date).head? = some start_date) := by
  simp only [get_ndvi_tseries] at h
  split at h
  · exact absurd h (by simp)
  · simp only [Except.ok.injEq, Prod.mk.injEq] at h
    obtain ⟨rfl, rfl⟩ := h
    refine ⟨by simp only [List.length_drop, List.length_map], rfl, ?_⟩
    intro hlt
    have h6 : (end_date - start_date + 5) / 6
        = (end_date - start_date + 5) / 6 - 1 + 1 := by
      have h5 : 6 ≤ end_date - start_date + 5 := by omega
      have := Nat.div_pos h5 (by norm_num)
      omega
    rw [newDates, h6, List.range_succ_eq_map]
    simp

/-- Witness for C9 on the concrete two-sample run `exTs`. -/
theorem C9_first_grid_point_dropped_witness :
    exTs.1.length = exTs.2.length
    ∧ exTs.2 = (newDates startDateDefault endDateDefault).drop 1
    ∧ (startDateDefault < endDateDefault →
        (newDates startDateDefault endDateDefault).head? = some startDateDefault) :=
  C9_first_grid_point_dropped 2 1 exStack2 exDates2 startDateDefault endDateDefault
    exTs.1 exTs.2 (by with_unfolding_all rfl)

/-- Monotone predicates give monotone counts. -/
theorem countP_le_countP_of_imp {α : Type} (l : List α) (p q : α → Bool)
    (h : ∀ a ∈ l, p a = true → q a = true) : l.countP p ≤ l.countP q := by
  induction l with
  | nil => simp
  | cons a l ih =>
      simp only [List.countP_cons]
      have ha := h a (List.mem_cons_self a l)
      have hl := ih (fun x hx => h x (List.mem_cons_of_mem a hx))
      by_cases hp : p a = true
      · rw [if_pos hp, if_pos (ha hp)]
        omega
      · rw [if_neg hp]
        split <;> omega

/-- C6: masking is monotone.  If two stacks agree on the red and nir bands
and on the pre-existing mask, and the second stack's cloud-flagged pixel
set (cloud band value 1) is a superset of the first's, then the number of
masked entries in the per-day aggregated NDVI series of the second stack
is at least that of the first. -/
theorem C6_mask_monotone (days px : ℕ) (s1 s2 : Stack days px)
    (hred : ∀ d p, s1.data d 0 p = s2.data d 0 p)
    (hnir : ∀ d p, s1.data d 1 p = s2.data d 1 p)
    (hmask : ∀ d b p, s1.mask d b p = s2.mask d b p)
    (hcloud : ∀ d p, cloudPredicate s1 d p = true → cloudPredicate s2 d p = true) :
    maskCount (tsOf s1) ≤ maskCount (tsOf s2) := by
  have hpt : ∀ d p, (ndvi (maskClouds s1)).mask d p = true
      → (ndvi (maskClouds s2)).mask d p = true := by
    intro d p
    simp only [ndvi, maskClouds, cmask, Bool.or_eq_true, decide_eq_true_eq]
    rw [← hmask d 1 p, ← hmask d 0 p, ← hnir d p, ← hred d p]
    have hc := hcloud d p
    tauto
  have hday : ∀ d, (tsOf s1).mask d = true → (tsOf s2).mask d = true := by
    intro d h
    simp only [tsOf, ndviTs, validPixelVals, List.isEmpty_iff, List.map_eq_nil_iff,
      List.filter_eq_nil_iff] at h ⊢
    intro p hp hq2
    refine h p hp ?_
    cases hm1 : (ndvi (maskClouds s1)).mask d p
    · simp
    · exact absurd (hpt d p hm1) (by simp_all)
  rw [maskCount, maskCount]
  exact countP_le_countP_of_imp _ _ _ (fun d _ => hday d)

/-- Witness for C6: flagging the clear stack's only pixel as cloud does
not decrease (here: strictly increases) the aggregate mask count. -/
theorem C6_mask_monotone_witness :
    maskCount (tsOf exStackClear) ≤ maskCount (tsOf exStackCloudy) :=
  C6_mask_monotone 1 1 exStackClear exStackCloudy
    (by decide) (by decide) (by decide) (by decide)

/-- The collection fold grows its two accumulators by the number of
successful and of failed tasks, respectively. -/
theorem collect_foldl_lengths (l : List DLTask) (acc : List (ℤ × String) × List DLTask) :
    (l.foldl collectStep acc).1.length
        = acc.1.length + l.countP (fun t => t.result?.isSome)
    ∧ (l.foldl collectStep acc).2.length
        = acc.2.length + l.countP (fun t => t.result?.isNone) := by
  induction l generalizing acc with
  | nil => simp
  | cons t l ih =>
      obtain ⟨h1, h2⟩ := ih (collectStep acc t)
      simp only [List.foldl_cons, List.countP_cons]
      cases ht : t.result? with
      | some r =>
          constructor
          · rw [h1]
            simp [collectStep, ht]
            omega
          · rw [h2]
            simp [collectStep, ht]
      | none =>
          constructor
          · rw [h1]
            simp [collectStep, ht]
          · rw [h2]
            simp [collectStep, ht]
            omega

/-- Among tasks 1..N, exactly `N / 10` task numbers are divisible by 10. -/
theorem countP_isNone_everyTenth (N : ℕ) :
    (everyTenthTasks N).countP (fun t => t.result?.isNone) = N / 10 := by
  induction N with
  | zero => rfl
  | succ n ih =>
      have hsplit : everyTenthTasks (n + 1)
          = everyTenthTasks n
            ++ [{ result? := if (n + 1) % 10 = 0 then none
                    else some (0, toString (n + 1)) }] := by
        rw [everyTenthTasks, everyTenthTasks, List.range_succ, List.map_append]
        rfl
      rw [hsplit, List.countP_append, ih]
      by_cases h : (n + 1) % 10 = 0
      · rw [Nat.succ_div, if_pos (Nat.dvd_of_mod_eq_zero h)]
        simp [h]
      · rw [Nat.succ_div, if_neg (by omega : ¬ 10 ∣ n + 1)]
        simp [h]

/-- Every task is either successful or failed, never both. -/
theorem countP_some_add_countP_none (l : List DLTask) :
    l.countP (fun t => t.result?.isSome) + l.countP (fun t => t.result?.isNone)
      = l.length := by
  induction l with
  | nil => rfl
  | cons t l ih =>
      simp only [List.countP_cons, List.length_cons]
      cases ht : t.result? <;> simp [ht] <;> omega

/-- C8: if the N tasks numbered 1..N, of which exactly every 10th raises,
complete in any order, the `as_completed` collection loop records exactly
`N − N/10` successful results, the failed-task list receives exactly
`N/10` entries, and each task is counted in exactly one of the two. -/
theorem C8_every_tenth_partition (N : ℕ) (completed : List DLTask)
    (hperm : completed.Perm (everyTenthTasks N)) :
    (collectResults completed).1.length = N - N / 10
    ∧ (collectResults completed).2.length = N / 10
    ∧ (collectResults completed).1.length + (collectResults completed).2.length = N := by
  obtain ⟨h1, h2⟩ := collect_foldl_lengths completed ([], [])
  simp only [List.length_nil, Nat.zero_add] at h1 h2
  have hs : completed.countP (fun t => t.result?.isSome)
      = (everyTenthTasks N).countP (fun t => t.result?.isSome) := hperm.countP_eq _
  have hn : completed.countP (fun t => t.result?.isNone)
      = (everyTenthTasks N).countP (fun t => t.result?.isNone) := hperm.countP_eq _
  have htot := countP_some_add_countP_none (everyTenthTasks N)
  have hlen : (everyTenthTasks N).length = N := by
    rw [everyTenthTasks, List.length_map, List.length_range]
  have hten := countP_isNone_everyTenth N
  rw [hlen, hten] at htot
  simp only [collectResults]
  rw [h1, h2, hs, hn, hten]
  omega

/-- Witness for C8 with N = 20 tasks completing in submission order:
18 successes and 2 failures. -/
theorem C8_every_tenth_partition_witness :
    (collectResults (everyTenthTasks 20)).1.length = 20 - 20 / 10
    ∧ (collectResults (everyTenthTasks 20)).2.length = 20 / 10
    ∧ (collectResults (everyTenthTasks 20)).1.length
        + (collectResults (everyTenthTasks 20)).2.length = 20 :=
  C8_every_tenth_partition 20 (everyTenthTasks 20) (List.Perm.refl _)

end EA
